import Mathlib

/-!
Shallow embedding of the `ministrhash` crate (`src/lib.rs`).

The crate exports two procedural macros, `str_hash_default` and
`str_hash_fnv1a`, that replace a quoted string literal token with a numeric
literal token holding a hash of the literal's contents.

Modelling choices:
* Raw token texts and hash inputs are byte sequences (`List Nat`, each entry
  a byte value); Rust's `str::len`, byte slicing `[0..1]`, `[len-1..len]`,
  `[1..len-1]` and the comparison against `"\""` (byte 0x22) are all
  byte-level operations and translate directly.
* `u32`/`u64` arithmetic is `Nat` with explicit `% 2^32` where Rust wraps.
* The macro's panics (`expect` / `assert!` / `panic!`) are modelled as
  `Except.error` values carrying the error kind of the spec's taxonomy and the
  offending data that Rust's panic message interpolates.
* Rust's `DefaultHasher` (std's SipHash-flavoured hasher) is external library
  code, not part of this repository, and the spec requires nothing of it
  beyond determinism within one seed configuration; it is therefore a
  parameter (`defaultHasher : List Nat → Nat`) of the definitions that use it.
-/

/-- Delimiter of a `proc_macro::Group`: parentheses, brackets, braces, or the
invisible `None` delimiter. -/
inductive Delimiter where
  | parenthesis : Delimiter
  | bracket : Delimiter
  | brace : Delimiter
  | invisible : Delimiter
deriving DecidableEq, Repr

/-- `proc_macro::TokenTree`: a literal (its raw source text as bytes), a
delimited group of further token trees, an identifier, or a punctuation
character. -/
inductive TokenTree where
  | literal (text : List Nat) : TokenTree
  | group (delim : Delimiter) (stream : List TokenTree) : TokenTree
  | ident (name : List Nat) : TokenTree
  | punct (ch : Nat) : TokenTree

/-- The reason a raw literal token text fails validation: the three `assert!`
checks in `str_hash_impl` (length `< 3`, first character not `"`, last
character not `"`), all covered by the spec's `InvalidLiteralFormat`. -/
inductive LiteralFormatViolation where
  | tooShort : LiteralFormatViolation
  | missingLeadingQuote : LiteralFormatViolation
  | missingTrailingQuote : LiteralFormatViolation
deriving DecidableEq, Repr

/-- The error taxonomy of the macro.  Each constructor corresponds to one
panic site of `str_hash_impl`; the payload is the data the Rust panic message
interpolates (echoes) into its diagnostic text. -/
inductive MacroError where
  | missingArgument : MacroError
  | tooManyArguments : MacroError
  | invalidLiteralFormat (reason : LiteralFormatViolation) (offending : List Nat) : MacroError
  | unexpectedTokenKind (offending : TokenTree) : MacroError

/-- The byte value of the double-quote character `"`. -/
def quoteByte : Nat := 0x22

/-- Validation of a raw literal token text, exactly as the `Literal` arm of
`str_hash_impl` performs it: `string.len() >= 3`, first byte `"`, last byte
`"`; on success the quote-stripped content `string[1..len-1]`. -/
def validate_literal (string : List Nat) : Except MacroError (List Nat) :=
  if string.length < 3 then
    .error (.invalidLiteralFormat .tooShort string)
  else if string.head? ≠ some quoteByte then
    .error (.invalidLiteralFormat .missingLeadingQuote string)
  else if string.getLast? ≠ some quoteByte then
    .error (.invalidLiteralFormat .missingTrailingQuote string)
  else
    .ok (string.drop 1).dropLast

/-- `str_hash_impl` from `src/lib.rs`.  `hashLiteral` abstracts the composition
`hash(&string).to_literal()` (hash the content, render the result as an
unsuffixed numeric literal token).  The returned token stream is the singleton
output stream; a panic is an `Except.error`. -/
def str_hash_impl (hashLiteral : List Nat → TokenTree) :
    List TokenTree → Except MacroError (List TokenTree)
  | [] => .error .missingArgument
  | tok :: rest =>
    let result : Except MacroError (List TokenTree) :=
      match tok with
      | .literal string => (validate_literal string).map (fun content => [hashLiteral content])
      | .group _ stream => str_hash_impl hashLiteral stream
      | .ident name => .error (.unexpectedTokenKind (.ident name))
      | .punct ch => .error (.unexpectedTokenKind (.punct ch))
    match result with
    | .error e => .error e
    | .ok res => if rest.isEmpty then .ok res else .error .tooManyArguments

/-- The FNV-1a multiplier `FNV1A_PRIME`. -/
def FNV1A_PRIME : Nat := 0x01000193

/-- The FNV-1a offset basis `FNV1A_SEED`. -/
def FNV1A_SEED : Nat := 0x811C9DC5

/-- One loop iteration of `string_hash_fnv1a`:
`hash = (hash ^ byte).wrapping_mul(FNV1A_PRIME)`. -/
def fnv1aStep (hash byte : Nat) : Nat :=
  ((hash ^^^ byte) * FNV1A_PRIME) % 2 ^ 32

/-- `string_hash_fnv1a` from `src/lib.rs`: fold `fnv1aStep` over the bytes of
the string, starting from `FNV1A_SEED`. -/
def string_hash_fnv1a (string : List Nat) : Nat :=
  string.foldl fnv1aStep FNV1A_SEED

/-- `string_hash_default` from `src/lib.rs`, parameterised by the external
std `DefaultHasher` (feeding the bytes to the hasher and finishing is the
hasher's own business); `finish` returns a `u64`, hence the `% 2 ^ 64`. -/
def string_hash_default (defaultHasher : List Nat → Nat) (string : List Nat) : Nat :=
  defaultHasher string % 2 ^ 64

/-- `Literal::u64_unsuffixed`: an unsuffixed integer literal token whose text
is the decimal rendering of the (64-bit) value. -/
def u64_unsuffixed (n : Nat) : TokenTree :=
  .literal ((Nat.toDigits 10 (n % 2 ^ 64)).map Char.toNat)

/-- `Literal::u32_unsuffixed`: an unsuffixed integer literal token whose text
is the decimal rendering of the (32-bit) value. -/
def u32_unsuffixed (n : Nat) : TokenTree :=
  .literal ((Nat.toDigits 10 (n % 2 ^ 32)).map Char.toNat)

/-- The exported macro `str_hash_default`, parameterised by the external std
default hasher. -/
def str_hash_default (defaultHasher : List Nat → Nat) (item : List TokenTree) :
    Except MacroError (List TokenTree) :=
  str_hash_impl (fun content => u64_unsuffixed (string_hash_default defaultHasher content)) item

/-- The exported macro `str_hash_fnv1a`. -/
def str_hash_fnv1a (item : List TokenTree) : Except MacroError (List TokenTree) :=
  str_hash_impl (fun content => u32_unsuffixed (string_hash_fnv1a content)) item

/-- Whether a macro invocation succeeded. -/
def exceptIsOk : Except MacroError (List TokenTree) → Bool
  | .ok _ => true
  | .error _ => false

/-- Nesting a token stream inside `k` singleton delimiter groups, delimiters
given outermost-first; used to state claims about recursive group unwrapping. -/
def nestGroups : List Delimiter → List TokenTree → List TokenTree
  | [], ts => ts
  | d :: ds, ts => [.group d (nestGroups ds ts)]

/-- Modelled from the spec (section 4.2), for comparison with the source
function `string_hash_fnv1a`: the state after processing the remaining bytes,
starting from `state`: for each byte `b` in order,
`state = (state XOR b) * 0x01000193`, truncated to 32 bits. -/
def fnv1a_reference_go (state : Nat) : List Nat → Nat
  | [] => state
  | b :: bs => fnv1a_reference_go (((state ^^^ b) * 0x01000193) % 2 ^ 32) bs

/-- Modelled from the spec (section 4.2): start from `0x811C9DC5`, process
every byte, return the final state. -/
def fnv1a_reference (s : List Nat) : Nat :=
  fnv1a_reference_go 0x811C9DC5 s

section Helpers

variable (hl : List Nat → TokenTree)

theorem str_hash_impl_nil : str_hash_impl hl [] = .error .missingArgument := by
  simp [str_hash_impl]

theorem str_hash_impl_cons (tok : TokenTree) (rest : List TokenTree) :
    str_hash_impl hl (tok :: rest) =
      match
        (match tok with
          | .literal s => (validate_literal s).map (fun content => [hl content])
          | .group _ stream => str_hash_impl hl stream
          | .ident name => .error (.unexpectedTokenKind (.ident name))
          | .punct ch => .error (.unexpectedTokenKind (.punct ch))) with
      | .error e => .error e
      | .ok res => if rest.isEmpty then .ok res else .error .tooManyArguments := by
  rw [str_hash_impl.eq_def]

theorem str_hash_impl_single_literal (s : List Nat) :
    str_hash_impl hl [.literal s] = (validate_literal s).map (fun content => [hl content]) := by
  rw [str_hash_impl_cons]
  cases h : validate_literal s <;> simp [h, Except.map]

theorem str_hash_impl_single_group (d : Delimiter) (stream : List TokenTree) :
    str_hash_impl hl [.group d stream] = str_hash_impl hl stream := by
  rw [str_hash_impl_cons]
  cases h : str_hash_impl hl stream <;> simp [h]

theorem str_hash_impl_single_ident (name : List Nat) :
    str_hash_impl hl [.ident name] = .error (.unexpectedTokenKind (.ident name)) := by
  rw [str_hash_impl_cons]

theorem str_hash_impl_single_punct (ch : Nat) :
    str_hash_impl hl [.punct ch] = .error (.unexpectedTokenKind (.punct ch)) := by
  rw [str_hash_impl_cons]

theorem str_hash_impl_single_eq (tok : TokenTree) (t : TokenTree) (ts : List TokenTree) :
    str_hash_impl hl (tok :: t :: ts) =
      match str_hash_impl hl [tok] with
      | .ok _ => .error .tooManyArguments
      | .error e => .error e := by
  rw [str_hash_impl_cons, str_hash_impl_cons]
  cases htok : (match tok with
      | .literal s => (validate_literal s).map (fun content => [hl content])
      | .group _ stream => str_hash_impl hl stream
      | .ident name => .error (.unexpectedTokenKind (.ident name))
      | .punct ch => .error (.unexpectedTokenKind (.punct ch))) <;> simp

theorem str_hash_impl_multi_fails (tok : TokenTree) (t : TokenTree) (ts : List TokenTree) :
    exceptIsOk (str_hash_impl hl (tok :: t :: ts)) = false := by
  rw [str_hash_impl_single_eq]
  cases str_hash_impl hl [tok] <;> simp [exceptIsOk]

theorem str_hash_impl_multi_ok_first (tok : TokenTree) (t : TokenTree) (ts : List TokenTree)
    (r : List TokenTree) (h : str_hash_impl hl [tok] = .ok r) :
    str_hash_impl hl (tok :: t :: ts) = .error .tooManyArguments := by
  rw [str_hash_impl_single_eq, h]

theorem str_hash_impl_multi_err_first (tok : TokenTree) (t : TokenTree) (ts : List TokenTree)
    (e : MacroError) (h : str_hash_impl hl [tok] = .error e) :
    str_hash_impl hl (tok :: t :: ts) = .error e := by
  rw [str_hash_impl_single_eq, h]

theorem validate_literal_accepts (s : List Nat) (h3 : 3 ≤ s.length)
    (hh : s.head? = some quoteByte) (hg : s.getLast? = some quoteByte) :
    validate_literal s = .ok ((s.drop 1).dropLast) := by
  rw [validate_literal, if_neg (by omega), if_neg (by simp [hh]), if_neg (by simp [hg])]

end Helpers

theorem fnv1a_go_eq (s : List Nat) :
    ∀ st, List.foldl fnv1aStep st s = fnv1a_reference_go st s := by
  induction s with
  | nil => intro st; rfl
  | cons b bs ih =>
    intro st
    rw [List.foldl_cons, fnv1a_reference_go]
    exact ih _

/-- C1: `string_hash_fnv1a` is bit-exact FNV-1a: starting from `0x811C9DC5`,
each byte updates the state by XOR-then-multiply with `0x01000193` wrapping
modulo `2^32`, and the final state is returned; the function is total on all
byte sequences (it is defined on every `List Nat`, including `[]`). -/
theorem fnv1a_matches_reference : ∀ s : List Nat, string_hash_fnv1a s = fnv1a_reference s :=
  fun s => fnv1a_go_eq s FNV1A_SEED

/-- C4: `string_hash_fnv1a` returns `0x811C9DC5` on the empty input and
`0xE40C292C` on the single byte `0x61` (the string `"a"`). -/
theorem fnv1a_known_values :
    string_hash_fnv1a [] = 0x811C9DC5 ∧ string_hash_fnv1a [0x61] = 0xE40C292C := by
  constructor <;> decide

/-- C9: both hashers are deterministic: equal inputs give equal outputs, for
`string_hash_fnv1a` and for `string_hash_default` within one seed
configuration (one fixed `defaultHasher`). -/
theorem hashers_deterministic (s1 s2 : List Nat) (dh : List Nat → Nat) (h : s1 = s2) :
    string_hash_fnv1a s1 = string_hash_fnv1a s2 ∧
    string_hash_default dh s1 = string_hash_default dh s2 := by
  subst h
  exact ⟨rfl, rfl⟩

theorem hashers_deterministic_witness :
    string_hash_fnv1a [0x61] = string_hash_fnv1a [0x61] ∧
    string_hash_default (fun _ => 0) [0x61] = string_hash_default (fun _ => 0) [0x61] :=
  hashers_deterministic [0x61] [0x61] (fun _ => 0) rfl

/-- C7: supplying an identifier token or a punctuation token where a literal
is required fails with an `UnexpectedTokenKind` error (no hash token is
produced), for both exported macros. -/
theorem nonliteral_token_rejected (dh : List Nat → Nat) (name : List Nat) (ch : Nat) :
    str_hash_default dh [.ident name] = .error (.unexpectedTokenKind (.ident name)) ∧
    str_hash_default dh [.punct ch] = .error (.unexpectedTokenKind (.punct ch)) ∧
    str_hash_fnv1a [.ident name] = .error (.unexpectedTokenKind (.ident name)) ∧
    str_hash_fnv1a [.punct ch] = .error (.unexpectedTokenKind (.punct ch)) :=
  ⟨str_hash_impl_single_ident _ name, str_hash_impl_single_punct _ ch,
   str_hash_impl_single_ident _ name, str_hash_impl_single_punct _ ch⟩

/-- C8: a token nested one level inside a delimiter group (any delimiter:
parentheses, brackets, braces) produces exactly the same output as the bare
token, for both exported macros; in particular for every quoted string
literal. -/
theorem group_unwrapped_transparently (dh : List Nat → Nat) (d : Delimiter) (raw : List Nat) :
    str_hash_default dh [.group d [.literal raw]] = str_hash_default dh [.literal raw] ∧
    str_hash_fnv1a [.group d [.literal raw]] = str_hash_fnv1a [.literal raw] :=
  ⟨str_hash_impl_single_group _ d _, str_hash_impl_single_group _ d _⟩

theorem str_hash_impl_nestGroups (hl : List Nat → TokenTree) (ds : List Delimiter)
    (ts : List TokenTree) :
    str_hash_impl hl (nestGroups ds ts) = str_hash_impl hl ts := by
  induction ds with
  | nil => rfl
  | cons d ds ih => rw [nestGroups, str_hash_impl_single_group, ih]

/-- C10: group unwrapping is recursive to any depth: a literal nested inside
any number of singleton delimiter groups (any mix of delimiters) hashes
identically to the bare literal, for both exported macros; and the
exactly-one-token requirement is enforced at every nesting level: a stream of
two or more tokens never succeeds, however deeply it is nested in singleton
groups. -/
theorem group_unwrapping_any_depth (dh : List Nat → Nat) (ds : List Delimiter) (raw : List Nat)
    (tok t : TokenTree) (ts : List TokenTree) :
    str_hash_default dh (nestGroups ds [.literal raw]) = str_hash_default dh [.literal raw] ∧
    str_hash_fnv1a (nestGroups ds [.literal raw]) = str_hash_fnv1a [.literal raw] ∧
    exceptIsOk (str_hash_fnv1a (nestGroups ds (tok :: t :: ts))) = false := by
  refine ⟨str_hash_impl_nestGroups _ ds _, str_hash_impl_nestGroups _ ds _, ?_⟩
  show exceptIsOk (str_hash_impl (fun content => u32_unsuffixed (string_hash_fnv1a content))
    (nestGroups ds (tok :: t :: ts))) = false
  rw [str_hash_impl_nestGroups]
  exact str_hash_impl_multi_fails _ tok t ts

/-- C2: for a well-formed invocation with exactly one quoted-string literal
token (raw text accepted by validation: length at least 3 with `"` first and
last), `str_hash_default` returns the unsuffixed 64-bit integer token of the
default hasher applied to the dequoted content, and `str_hash_fnv1a` the
unsuffixed 32-bit integer token of `string_hash_fnv1a` applied to it, where
the content is the raw text strictly between the first and last character. -/
theorem single_literal_hashes (dh : List Nat → Nat) (raw : List Nat)
    (h3 : 3 ≤ raw.length) (hh : raw.head? = some quoteByte)
    (hg : raw.getLast? = some quoteByte) :
    str_hash_default dh [.literal raw] =
      .ok [u64_unsuffixed (string_hash_default dh ((raw.drop 1).dropLast))] ∧
    str_hash_fnv1a [.literal raw] =
      .ok [u32_unsuffixed (string_hash_fnv1a ((raw.drop 1).dropLast))] := by
  have hv := validate_literal_accepts raw h3 hh hg
  constructor
  · show str_hash_impl _ [.literal raw] = _
    rw [str_hash_impl_single_literal, hv]
    rfl
  · show str_hash_impl _ [.literal raw] = _
    rw [str_hash_impl_single_literal, hv]
    rfl

theorem single_literal_hashes_witness :
    str_hash_default (fun _ => 7) [.literal [34, 97, 34]] =
      .ok [u64_unsuffixed (string_hash_default (fun _ => 7) [97])] ∧
    str_hash_fnv1a [.literal [34, 97, 34]] =
      .ok [u32_unsuffixed (string_hash_fnv1a [97])] :=
  single_literal_hashes (fun _ => 7) [34, 97, 34] (by decide) (by decide) (by decide)

/-- C3 counterexample: the length-2 raw token text `""` (two quote bytes) is
NOT accepted by validation: it fails the `len >= 3` check with an
`InvalidLiteralFormat` error, and the macro invocation on it does not
succeed. -/
theorem empty_literal_rejected :
    validate_literal [quoteByte, quoteByte] =
      .error (.invalidLiteralFormat .tooShort [quoteByte, quoteByte]) ∧
    exceptIsOk (str_hash_fnv1a [.literal [quoteByte, quoteByte]]) = false := by
  constructor
  · rfl
  · show exceptIsOk (str_hash_impl _ [.literal [quoteByte, quoteByte]]) = false
    rw [str_hash_impl_single_literal]
    rfl

/-- C3 (amended): the length-2 raw token text `""` is rejected by validation
with an `InvalidLiteralFormat` error (the macro requires a non-empty string
literal), and validation accepts exactly the raw token texts of length at
least 3 whose first and last characters are both a double-quote, producing
the content strictly between the quotes. -/
theorem literal_boundary_validation (raw : List Nat) (h3 : 3 ≤ raw.length)
    (hh : raw.head? = some quoteByte) (hg : raw.getLast? = some quoteByte) :
    validate_literal [quoteByte, quoteByte] =
      .error (.invalidLiteralFormat .tooShort [quoteByte, quoteByte]) ∧
    validate_literal raw = .ok ((raw.drop 1).dropLast) :=
  ⟨rfl, validate_literal_accepts raw h3 hh hg⟩

theorem literal_boundary_validation_witness :
    validate_literal [quoteByte, quoteByte] =
      .error (.invalidLiteralFormat .tooShort [quoteByte, quoteByte]) ∧
    validate_literal [34, 97, 98, 34] = .ok [97, 98] :=
  literal_boundary_validation [34, 97, 98, 34] (by decide) (by decide) (by decide)

/-- C5: validation checks, in order, that the raw literal token text has
length at least 3, starts with `"` and ends with `"`; each violation yields an
`InvalidLiteralFormat` error carrying (echoing) the offending text, every
validation error is an `InvalidLiteralFormat` carrying the offending text, the
macro fails with exactly that error, and on success the quote-stripped content
is the text strictly between the first and last character. -/
theorem validation_contract (s : List Nat) (hl : List Nat → TokenTree) :
    (s.length < 3 → validate_literal s = .error (.invalidLiteralFormat .tooShort s)) ∧
    (3 ≤ s.length → s.head? ≠ some quoteByte →
      validate_literal s = .error (.invalidLiteralFormat .missingLeadingQuote s)) ∧
    (3 ≤ s.length → s.head? = some quoteByte → s.getLast? ≠ some quoteByte →
      validate_literal s = .error (.invalidLiteralFormat .missingTrailingQuote s)) ∧
    (3 ≤ s.length → s.head? = some quoteByte → s.getLast? = some quoteByte →
      validate_literal s = .ok ((s.drop 1).dropLast)) ∧
    (∀ e, validate_literal s = .error e → ∃ v, e = .invalidLiteralFormat v s) ∧
    (∀ e, validate_literal s = .error e → str_hash_impl hl [.literal s] = .error e) := by
  refine ⟨?_, ?_, ?_, ?_, ?_, ?_⟩
  · intro h
    rw [validate_literal, if_pos h]
  · intro h3 hh
    rw [validate_literal, if_neg (by omega), if_pos hh]
  · intro h3 hh hg
    rw [validate_literal, if_neg (by omega), if_neg (by simp [hh]), if_pos hg]
  · exact fun h3 hh hg => validate_literal_accepts s h3 hh hg
  · intro e he
    rw [validate_literal] at he
    split_ifs at he with h1 h2 h3
    · exact ⟨.tooShort, (Except.error.inj he).symm⟩
    · exact ⟨.missingLeadingQuote, (Except.error.inj he).symm⟩
    · exact ⟨.missingTrailingQuote, (Except.error.inj he).symm⟩
  · intro e he
    rw [str_hash_impl_single_literal, he]
    rfl

theorem validation_contract_witness :
    validate_literal [34, 98, 34] = .ok [98] :=
  (validation_contract [34, 98, 34] (fun _ => .punct 0)).2.2.2.1 (by decide) (by decide)
    (by decide)

/-- C6 counterexample: an invocation with more than one token does not always
fail with `TooManyArguments`: when the first token is the identifier `foo`
followed by the literal `"a"`, `str_hash_fnv1a` fails with
`UnexpectedTokenKind` instead. -/
theorem multi_token_not_always_too_many :
    str_hash_fnv1a [.ident [0x66, 0x6F, 0x6F], .literal [quoteByte, 0x61, quoteByte]] =
      .error (.unexpectedTokenKind (.ident [0x66, 0x6F, 0x6F])) ∧
    MacroError.unexpectedTokenKind (.ident [0x66, 0x6F, 0x6F]) ≠ .tooManyArguments := by
  constructor
  · show str_hash_impl _ _ = _
    exact str_hash_impl_multi_err_first _ _ _ _ _ (str_hash_impl_single_ident _ _)
  · intro h
    exact MacroError.noConfusion h

/-- C6 (amended): an invocation with zero tokens fails with `MissingArgument`;
an invocation with more than one token always fails, with `TooManyArguments`
whenever the first token alone would have been accepted (in particular for two
literal tokens), and otherwise with the first token's own error. -/
theorem argument_count_errors (hl : List Nat → TokenTree) (tok t : TokenTree)
    (ts : List TokenTree) :
    str_hash_impl hl [] = .error .missingArgument ∧
    exceptIsOk (str_hash_impl hl (tok :: t :: ts)) = false ∧
    (∀ r, str_hash_impl hl [tok] = .ok r →
      str_hash_impl hl (tok :: t :: ts) = .error .tooManyArguments) ∧
    (∀ e, str_hash_impl hl [tok] = .error e →
      str_hash_impl hl (tok :: t :: ts) = .error e) :=
  ⟨str_hash_impl_nil hl, str_hash_impl_multi_fails hl tok t ts,
   fun r h => str_hash_impl_multi_ok_first hl tok t ts r h,
   fun e h => str_hash_impl_multi_err_first hl tok t ts e h⟩

theorem argument_count_errors_witness :
    str_hash_impl (fun content => u32_unsuffixed (string_hash_fnv1a content))
      [.literal [34, 97, 34], .literal [34, 98, 34]] = .error .tooManyArguments :=
  (argument_count_errors (fun content => u32_unsuffixed (string_hash_fnv1a content))
      (.literal [34, 97, 34]) (.literal [34, 98, 34]) []).2.2.1
    [u32_unsuffixed (string_hash_fnv1a [97])]
    (by rw [str_hash_impl_single_literal]; rfl)
